import Mathlib

/-!
# Verification of the mavros IMU plugin (`src/mavros/src/plugins/imu.cpp`)

Shallow embedding of the `IMUPlugin` class: its mutable state (arbiter
flags, cached linear acceleration, covariance matrices), its message
handlers, and its connection callback.  IEEE doubles are modelled as exact
rationals (`ℚ`); int16 message fields as `ℤ`.  External collaborators
(timestamp synchronizer, quaternion library) that are out of scope for the
plugin are modelled per the spec, as noted on each definition.
-/

/-- A 3-vector with rational components (models `Eigen::Vector3d`). -/
structure Vec3 where
  x : ℚ
  y : ℚ
  z : ℚ
deriving DecidableEq, Repr

/-- Componentwise scaling `v * c` (models `Eigen::Vector3d * double`). -/
def Vec3.scale (v : Vec3) (c : ℚ) : Vec3 :=
  ⟨v.x * c, v.y * c, v.z * c⟩

/-- The zero vector (models `Eigen::Vector3d::setZero`). -/
def Vec3.zero : Vec3 := ⟨0, 0, 0⟩

/-- Modelled from the spec: the quaternion/vector math library (`ftf`) is an
external collaborator "consumed as a primitive capability"; orientations are
modelled as the free algebra of its operations, recording exactly which
primitives were applied to which raw inputs.  `defaultQuat` is the
default-constructed (all-zero) quaternion of an untouched `sensor_msgs::Imu`. -/
inductive Quat where
  | defaultQuat : Quat
  | quaternion_from_rpy (roll pitch yaw : ℚ) : Quat
  | quaternion_wxyz (q1 q2 q3 q4 : ℚ) : Quat
  | transform_orientation_ned_enu (q : Quat) : Quat
  | transform_orientation_aircraft_baselink (q : Quat) : Quat
deriving DecidableEq, Repr

/-- Modelled from the spec: the fixed static aircraft→base_link body-frame
rotation ("a fixed 180°-class axis remap", a roll of π), which negates the
y and z components.  This models `ftf::transform_frame_aircraft_baselink`. -/
def transform_frame_aircraft_baselink (v : Vec3) : Vec3 :=
  ⟨v.x, -v.y, -v.z⟩

/-- A message header (frame id + timestamp). -/
structure Header where
  frame_id : String
  stamp : ℕ
deriving DecidableEq, Repr

/-- Modelled from the spec: the timestamp synchronizer is an external service
"consumed as an opaque service that converts a raw device time plus a frame
identifier into a canonical timestamped header"; modelled as the pairing of
the two.  This models `UAS::synchronized_header`. -/
def synchronized_header (frame_id : String) (stamp : ℕ) : Header :=
  ⟨frame_id, stamp⟩

/-- Gauss to Tesla coeff (`GAUSS_TO_TESLA = 1.0e-4`). -/
def GAUSS_TO_TESLA : ℚ := 1.0e-4

/-- millTesla to Tesla coeff (`MILLIT_TO_TESLA = 1000.0`). -/
def MILLIT_TO_TESLA : ℚ := 1000.0

/-- millRad/Sec to Rad/Sec coeff (`MILLIRS_TO_RADSEC = 1.0e-3`). -/
def MILLIRS_TO_RADSEC : ℚ := 1.0e-3

/-- millG to m/s**2 coeff (`MILLIG_TO_MS2 = 9.80665 / 1000.0`). -/
def MILLIG_TO_MS2 : ℚ := 9.80665 / 1000.0

/-- millBar to Pascal coeff (`MILLIBAR_TO_PASCAL = 1.0e2`). -/
def MILLIBAR_TO_PASCAL : ℚ := 1.0e2

/-- A 3×3 row-major covariance matrix, 9 scalars (`ftf::Covariance3d`). -/
abbrev Cov := List ℚ

/-- Model of `IMUPlugin::setup_covariance`: fill with zero; if `stdev == 0.0` set
element 0 to -1, else set elements 0, 4, 8 to `stdev²`. -/
def setup_covariance (stdev : ℚ) : Cov :=
  if stdev = 0 then
    [-1, 0, 0, 0, 0, 0, 0, 0, 0]
  else
    [stdev ^ 2, 0, 0, 0, stdev ^ 2, 0, 0, 0, stdev ^ 2]

/-- The decoded MAVLink messages handled by the plugin (float fields as `ℚ`,
int16 fields as `ℤ`, the `HIGHRES_IMU.fields_updated` bitmask as `ℕ`). -/
inductive Msg where
  | attitude (time_boot_ms : ℕ)
      (roll pitch yaw rollspeed pitchspeed yawspeed : ℚ) : Msg
  | attitude_quaternion (time_boot_ms : ℕ)
      (q1 q2 q3 q4 rollspeed pitchspeed yawspeed : ℚ) : Msg
  | highres_imu (time_usec : ℕ)
      (xacc yacc zacc xgyro ygyro zgyro xmag ymag zmag : ℚ)
      (abs_pressure temperature : ℚ) (fields_updated : ℕ) : Msg
  | raw_imu (time_usec : ℕ)
      (xacc yacc zacc xgyro ygyro zgyro xmag ymag zmag : ℤ) : Msg
  | scaled_imu (time_boot_ms : ℕ)
      (xacc yacc zacc xgyro ygyro zgyro xmag ymag zmag : ℤ) : Msg
  | scaled_pressure (time_boot_ms : ℕ) (press_abs temperature : ℚ) : Msg
deriving DecidableEq, Repr

/-- The mutable state of `IMUPlugin`: the three arbiter flags, the cached
linear-acceleration pair, the five covariance matrices, and the configured
frame id. -/
structure IMUState where
  frame_id : String
  has_hr_imu : Bool
  has_scaled_imu : Bool
  has_att_quat : Bool
  linear_accel_vec_enu : Vec3
  linear_accel_vec_ned : Vec3
  linear_acceleration_cov : Cov
  angular_velocity_cov : Cov
  orientation_cov : Cov
  unk_orientation_cov : Cov
  magnetic_cov : Cov
deriving DecidableEq, Repr

/-- One `sensor_msgs::Imu` output record. -/
structure ImuData where
  header : Header
  orientation : Quat
  angular_velocity : Vec3
  linear_acceleration : Vec3
  orientation_covariance : Cov
  angular_velocity_covariance : Cov
  linear_acceleration_covariance : Cov
deriving DecidableEq, Repr

/-- One dispatch into an external sink: the two UAS attitude stores, the five
publishers (`data`, `data_raw`, `mag`, `temperature`, `atm_pressure`). -/
inductive Output where
  | update_attitude_imu_enu (m : ImuData) : Output
  | update_attitude_imu_ned (m : ImuData) : Output
  | imu_pub (m : ImuData) : Output
  | imu_raw_pub (m : ImuData) : Output
  | magn_pub (header : Header) (magnetic_field : Vec3)
      (magnetic_field_covariance : Cov) : Output
  | temp_pub (header : Header) (temperature : ℚ) : Output
  | press_pub (header : Header) (fluid_pressure : ℚ) : Output
deriving DecidableEq, Repr

/-- Model of `IMUPlugin` construction plus `initialize`: build the state after parameter loading —
flags false, covariances from the four configured stdevs plus the
`setup_covariance(unk_orientation_cov, 0.0)` sentinel.  The Eigen cache
vectors are default-constructed (unspecified), so they are parameters. -/
def init_state (frame_id : String)
    (linear_stdev angular_stdev orientation_stdev mag_stdev : ℚ)
    (accel0_enu accel0_ned : Vec3) : IMUState :=
  { frame_id := frame_id
    has_hr_imu := false
    has_scaled_imu := false
    has_att_quat := false
    linear_accel_vec_enu := accel0_enu
    linear_accel_vec_ned := accel0_ned
    linear_acceleration_cov := setup_covariance linear_stdev
    angular_velocity_cov := setup_covariance angular_stdev
    orientation_cov := setup_covariance orientation_stdev
    unk_orientation_cov := setup_covariance 0
    magnetic_cov := setup_covariance mag_stdev }

/-- Model of `IMUPlugin::publish_imu_data`: build the ENU and NED records (orientation,
gyro, the cached linear acceleration, the configured covariances on both),
store both attitudes in the UAS, publish only the ENU record.  Reads but
does not modify the plugin state. -/
def publish_imu_data (s : IMUState) (time_boot_ms : ℕ)
    (orientation_enu orientation_ned : Quat)
    (gyro_enu gyro_ned : Vec3) : List Output :=
  let imu_enu_msg : ImuData :=
    { header := synchronized_header s.frame_id time_boot_ms
      orientation := orientation_enu
      angular_velocity := gyro_enu
      linear_acceleration := s.linear_accel_vec_enu
      orientation_covariance := s.orientation_cov
      angular_velocity_covariance := s.angular_velocity_cov
      linear_acceleration_covariance := s.linear_acceleration_cov }
  let imu_ned_msg : ImuData :=
    { header := synchronized_header "aircraft" time_boot_ms
      orientation := orientation_ned
      angular_velocity := gyro_ned
      linear_acceleration := s.linear_accel_vec_ned
      orientation_covariance := s.orientation_cov
      angular_velocity_covariance := s.angular_velocity_cov
      linear_acceleration_covariance := s.linear_acceleration_cov }
  [Output.update_attitude_imu_enu imu_enu_msg,
   Output.update_attitude_imu_ned imu_ned_msg,
   Output.imu_pub imu_enu_msg]

/-- Model of `IMUPlugin::publish_imu_data_raw`: build the `data_raw` record (ENU, no
orientation, unknown orientation covariance), save the acceleration pair into
the cache, publish. -/
def publish_imu_data_raw (s : IMUState) (header : Header)
    (gyro accel_enu accel_ned : Vec3) : IMUState × List Output :=
  let imu_msg : ImuData :=
    { header := header
      orientation := Quat.defaultQuat
      angular_velocity := gyro
      linear_acceleration := accel_enu
      orientation_covariance := s.unk_orientation_cov
      angular_velocity_covariance := s.angular_velocity_cov
      linear_acceleration_covariance := s.linear_acceleration_cov }
  ({ s with linear_accel_vec_enu := accel_enu
            linear_accel_vec_ned := accel_ned },
   [Output.imu_raw_pub imu_msg])

/-- Model of `IMUPlugin::publish_mag`: build and publish the magnetic-field record. -/
def publish_mag (s : IMUState) (header : Header) (mag_field : Vec3) : Output :=
  Output.magn_pub header mag_field s.magnetic_cov

/-- Model of `IMUPlugin::handle_attitude`: dropped when `has_att_quat`; otherwise form
the NED orientation from r/p/y, compose to the ENU/base_link orientation,
rotate the gyro vector, and publish the pair. -/
def handle_attitude (s : IMUState) (time_boot_ms : ℕ)
    (roll pitch yaw rollspeed pitchspeed yawspeed : ℚ) :
    IMUState × List Output :=
  if s.has_att_quat then (s, [])
  else
    let ned_aircraft_orientation := Quat.quaternion_from_rpy roll pitch yaw
    let gyro_ned : Vec3 := ⟨rollspeed, pitchspeed, yawspeed⟩
    let enu_baselink_orientation :=
      Quat.transform_orientation_aircraft_baselink
        (Quat.transform_orientation_ned_enu ned_aircraft_orientation)
    let gyro_enu := transform_frame_aircraft_baselink gyro_ned
    (s, publish_imu_data s time_boot_ms enu_baselink_orientation
          ned_aircraft_orientation gyro_enu gyro_ned)

/-- Model of `IMUPlugin::handle_attitude_quaternion`: set `has_att_quat`, form the NED
orientation from the wire quaternion, compose and publish as for ATTITUDE. -/
def handle_attitude_quaternion (s : IMUState) (time_boot_ms : ℕ)
    (q1 q2 q3 q4 rollspeed pitchspeed yawspeed : ℚ) :
    IMUState × List Output :=
  let s' := { s with has_att_quat := true }
  let ned_aircraft_orientation := Quat.quaternion_wxyz q1 q2 q3 q4
  let gyro_ned : Vec3 := ⟨rollspeed, pitchspeed, yawspeed⟩
  let enu_baselink_orientation :=
    Quat.transform_orientation_aircraft_baselink
      (Quat.transform_orientation_ned_enu ned_aircraft_orientation)
  let gyro_enu := transform_frame_aircraft_baselink gyro_ned
  (s', publish_imu_data s' time_boot_ms enu_baselink_orientation
        ned_aircraft_orientation gyro_enu gyro_ned)

/-- Model of `IMUPlugin::handle_highres_imu`: set `has_hr_imu`; then, independently
gated on the `fields_updated` bitmask: accel+gyro → `publish_imu_data_raw`
(no unit scaling), magnetometer → Gauss→Tesla then rotate then `publish_mag`,
pressure → millibar→Pascal, temperature → passed through. -/
def handle_highres_imu (s : IMUState) (time_usec : ℕ)
    (xacc yacc zacc xgyro ygyro zgyro xmag ymag zmag : ℚ)
    (abs_pressure temperature : ℚ) (fields_updated : ℕ) :
    IMUState × List Output :=
  let s' := { s with has_hr_imu := true }
  let header := synchronized_header s.frame_id time_usec
  let stepAccel :=
    if Nat.land fields_updated (Nat.lor (7 <<< 3) (7 <<< 0)) ≠ 0 then
      let gyro := transform_frame_aircraft_baselink ⟨xgyro, ygyro, zgyro⟩
      let accel_ned : Vec3 := ⟨xacc, yacc, zacc⟩
      let accel_enu := transform_frame_aircraft_baselink accel_ned
      publish_imu_data_raw s' header gyro accel_enu accel_ned
    else (s', [])
  let s1 := stepAccel.1
  let outMag :=
    if Nat.land fields_updated (7 <<< 6) ≠ 0 then
      let mag_field := transform_frame_aircraft_baselink
        (Vec3.scale ⟨xmag, ymag, zmag⟩ GAUSS_TO_TESLA)
      [publish_mag s1 header mag_field]
    else []
  let outPress :=
    if Nat.land fields_updated (1 <<< 9) ≠ 0 then
      [Output.press_pub header (abs_pressure * MILLIBAR_TO_PASCAL)]
    else []
  let outTemp :=
    if Nat.land fields_updated (1 <<< 12) ≠ 0 then
      [Output.temp_pub header temperature]
    else []
  (s1, stepAccel.2 ++ outMag ++ outPress ++ outTemp)

/-- Model of `IMUPlugin::handle_raw_imu`: dropped when `has_hr_imu || has_scaled_imu`;
otherwise scale the gyro (milliRad/s→Rad/s), rotate; acceleration is scaled
by `MILLIG_TO_MS2` only on APM (`is_ardupilotmega`); publish `data_raw`
(which caches the acceleration pair); on non-APM, zero the cached pair
afterwards; finally scale (milliTesla→Tesla), rotate and publish the
magnetic field. -/
def handle_raw_imu (apm : Bool) (s : IMUState) (time_usec : ℕ)
    (xacc yacc zacc xgyro ygyro zgyro xmag ymag zmag : ℤ) :
    IMUState × List Output :=
  if s.has_hr_imu || s.has_scaled_imu then (s, [])
  else
    let header := synchronized_header s.frame_id time_usec
    let gyro := transform_frame_aircraft_baselink
      (Vec3.scale ⟨(xgyro : ℚ), (ygyro : ℚ), (zgyro : ℚ)⟩ MILLIRS_TO_RADSEC)
    let accel_ned : Vec3 := ⟨(xacc : ℚ), (yacc : ℚ), (zacc : ℚ)⟩
    let accel_enu := transform_frame_aircraft_baselink accel_ned
    let accel_ned := if apm then accel_ned.scale MILLIG_TO_MS2 else accel_ned
    let accel_enu := if apm then accel_enu.scale MILLIG_TO_MS2 else accel_enu
    let stepRaw := publish_imu_data_raw s header gyro accel_enu accel_ned
    let s2 :=
      if apm then stepRaw.1
      else { stepRaw.1 with linear_accel_vec_enu := Vec3.zero
                            linear_accel_vec_ned := Vec3.zero }
    let mag_field := transform_frame_aircraft_baselink
      (Vec3.scale ⟨(xmag : ℚ), (ymag : ℚ), (zmag : ℚ)⟩ MILLIT_TO_TESLA)
    (s2, stepRaw.2 ++ [publish_mag s2 header mag_field])

/-- Model of `IMUPlugin::handle_scaled_imu`: dropped when `has_hr_imu`; otherwise set
`has_scaled_imu`, scale gyro (milliRad/s→Rad/s) and acceleration (milli-G→
m/s²), rotate, publish `data_raw`, then the magnetic field. -/
def handle_scaled_imu (s : IMUState) (time_boot_ms : ℕ)
    (xacc yacc zacc xgyro ygyro zgyro xmag ymag zmag : ℤ) :
    IMUState × List Output :=
  if s.has_hr_imu then (s, [])
  else
    let s' := { s with has_scaled_imu := true }
    let header := synchronized_header s.frame_id time_boot_ms
    let gyro := transform_frame_aircraft_baselink
      (Vec3.scale ⟨(xgyro : ℚ), (ygyro : ℚ), (zgyro : ℚ)⟩ MILLIRS_TO_RADSEC)
    let accel_ned := Vec3.scale ⟨(xacc : ℚ), (yacc : ℚ), (zacc : ℚ)⟩ MILLIG_TO_MS2
    let accel_enu := transform_frame_aircraft_baselink accel_ned
    let stepRaw := publish_imu_data_raw s' header gyro accel_enu accel_ned
    let mag_field := transform_frame_aircraft_baselink
      (Vec3.scale ⟨(xmag : ℚ), (ymag : ℚ), (zmag : ℚ)⟩ MILLIT_TO_TESLA)
    (stepRaw.1, stepRaw.2 ++ [publish_mag stepRaw.1 header mag_field])

/-- Model of `IMUPlugin::handle_scaled_pressure`: dropped when `has_hr_imu`; otherwise
publish temperature (`temperature / 100.0`) then pressure
(`press_abs * 100.0`). -/
def handle_scaled_pressure (s : IMUState) (time_boot_ms : ℕ)
    (press_abs temperature : ℚ) : IMUState × List Output :=
  if s.has_hr_imu then (s, [])
  else
    let header := synchronized_header s.frame_id time_boot_ms
    (s, [Output.temp_pub header (temperature / 100.0),
         Output.press_pub header (press_abs * 100.0)])

/-- Model of `IMUPlugin::connection_cb`: on any connection change (either direction)
reset the three arbiter flags; nothing else is touched. -/
def connection_cb (s : IMUState) (_connected : Bool) : IMUState :=
  { s with has_hr_imu := false
           has_scaled_imu := false
           has_att_quat := false }

/-- An event delivered by the transport layer: a decoded message or a
connection-changed notification. -/
inductive Event where
  | msg (m : Msg) : Event
  | connection_changed (connected : Bool) : Event
deriving DecidableEq, Repr

/-- One step of the plugin: dispatch one event to its handler.  `apm` is the
external firmware-family predicate `UAS::is_ardupilotmega`. -/
def step (apm : Bool) (s : IMUState) : Event → IMUState × List Output
  | Event.msg (Msg.attitude t r p y rs ps ys) =>
      handle_attitude s t r p y rs ps ys
  | Event.msg (Msg.attitude_quaternion t q1 q2 q3 q4 rs ps ys) =>
      handle_attitude_quaternion s t q1 q2 q3 q4 rs ps ys
  | Event.msg (Msg.highres_imu t xa ya za xg yg zg xm ym zm ap tm fu) =>
      handle_highres_imu s t xa ya za xg yg zg xm ym zm ap tm fu
  | Event.msg (Msg.raw_imu t xa ya za xg yg zg xm ym zm) =>
      handle_raw_imu apm s t xa ya za xg yg zg xm ym zm
  | Event.msg (Msg.scaled_imu t xa ya za xg yg zg xm ym zm) =>
      handle_scaled_imu s t xa ya za xg yg zg xm ym zm
  | Event.msg (Msg.scaled_pressure t pa tm) =>
      handle_scaled_pressure s t pa tm
  | Event.connection_changed c => (connection_cb s c, [])

/-- Run a sequence of events, collecting all dispatches in order. -/
def run (apm : Bool) (s : IMUState) : List Event → IMUState × List Output
  | [] => (s, [])
  | e :: rest =>
      let st := step apm s e
      let rst := run apm st.1 rest
      (rst.1, st.2 ++ rst.2)

/-- The arbiter's acceptance predicate, read off the guard at the top of each
handler: ATTITUDE is gated on `has_att_quat`, RAW_IMU on
`has_hr_imu || has_scaled_imu`, SCALED_IMU and SCALED_PRESSURE on
`has_hr_imu`; ATTITUDE_QUATERNION and HIGHRES_IMU are always accepted. -/
def accepts (s : IMUState) : Msg → Bool
  | Msg.attitude .. => !s.has_att_quat
  | Msg.attitude_quaternion .. => true
  | Msg.highres_imu .. => true
  | Msg.raw_imu .. => !(s.has_hr_imu || s.has_scaled_imu)
  | Msg.scaled_imu .. => !s.has_hr_imu
  | Msg.scaled_pressure .. => !s.has_hr_imu

/-- Message-kind discriminators. -/
def Msg.isAttitude : Msg → Bool
  | Msg.attitude .. => true
  | _ => false

/-- Discriminator for ATTITUDE_QUATERNION. -/
def Msg.isAttitudeQuaternion : Msg → Bool
  | Msg.attitude_quaternion .. => true
  | _ => false

/-- Discriminator for HIGHRES_IMU. -/
def Msg.isHighresImu : Msg → Bool
  | Msg.highres_imu .. => true
  | _ => false

/-- Discriminator for RAW_IMU. -/
def Msg.isRawImu : Msg → Bool
  | Msg.raw_imu .. => true
  | _ => false

/-- Discriminator for SCALED_IMU. -/
def Msg.isScaledImu : Msg → Bool
  | Msg.scaled_imu .. => true
  | _ => false

/-- Discriminator for message events (as opposed to connection changes). -/
def Event.isMsg : Event → Bool
  | Event.msg _ => true
  | Event.connection_changed _ => false

/-! ## Shared lemmas about the arbiter flags -/

/-- How one message step transforms the three arbiter flags: `has_hr_imu` is
set by HIGHRES_IMU and otherwise preserved; `has_scaled_imu` is set by an
accepted SCALED_IMU and otherwise preserved; `has_att_quat` is set by
ATTITUDE_QUATERNION and otherwise preserved. -/
theorem step_msg_flags (apm : Bool) (s : IMUState) (m : Msg) :
    ((step apm s (Event.msg m)).1.has_hr_imu = (s.has_hr_imu || m.isHighresImu))
    ∧ ((step apm s (Event.msg m)).1.has_scaled_imu
        = (s.has_scaled_imu || (m.isScaledImu && !s.has_hr_imu)))
    ∧ ((step apm s (Event.msg m)).1.has_att_quat
        = (s.has_att_quat || m.isAttitudeQuaternion)) := by
  cases m <;>
    simp [step, handle_attitude, handle_attitude_quaternion, handle_highres_imu,
      handle_raw_imu, handle_scaled_imu, handle_scaled_pressure,
      publish_imu_data_raw, Msg.isHighresImu, Msg.isScaledImu,
      Msg.isAttitudeQuaternion] <;>
    repeat' split <;> simp_all

/-- A message that the arbiter does not accept is dropped: no output, no
state change. -/
theorem accepts_false_drop (apm : Bool) (s : IMUState) (m : Msg)
    (h : accepts s m = false) : step apm s (Event.msg m) = (s, []) := by
  cases m <;> simp_all [accepts, step, handle_attitude, handle_raw_imu,
    handle_scaled_imu, handle_scaled_pressure]

/-- Running any message-only event list preserves a true `has_hr_imu`. -/
theorem run_msgs_hr (apm : Bool) (s : IMUState) (evs : List Event)
    (hm : ∀ e ∈ evs, e.isMsg = true) (hs : s.has_hr_imu = true) :
    (run apm s evs).1.has_hr_imu = true := by
  induction evs generalizing s with
  | nil => exact hs
  | cons e rest ih =>
      cases e with
      | msg m =>
          simp only [run]
          exact ih (step apm s (Event.msg m)).1
            (fun e he => hm e (List.mem_cons_of_mem _ he))
            (by rw [(step_msg_flags apm s m).1, hs, Bool.true_or])
      | connection_changed c =>
          exact absurd (hm _ (List.mem_cons_self _ _)) (by simp [Event.isMsg])

/-- Running any message-only event list preserves a true `has_att_quat`. -/
theorem run_msgs_quat (apm : Bool) (s : IMUState) (evs : List Event)
    (hm : ∀ e ∈ evs, e.isMsg = true) (hs : s.has_att_quat = true) :
    (run apm s evs).1.has_att_quat = true := by
  induction evs generalizing s with
  | nil => exact hs
  | cons e rest ih =>
      cases e with
      | msg m =>
          simp only [run]
          exact ih (step apm s (Event.msg m)).1
            (fun e he => hm e (List.mem_cons_of_mem _ he))
            (by rw [(step_msg_flags apm s m).2.2, hs, Bool.true_or])
      | connection_changed c =>
          exact absurd (hm _ (List.mem_cons_self _ _)) (by simp [Event.isMsg])

/-- Running any message-only event list preserves a true
`has_hr_imu || has_scaled_imu`. -/
theorem run_msgs_hr_or_scaled (apm : Bool) (s : IMUState) (evs : List Event)
    (hm : ∀ e ∈ evs, e.isMsg = true)
    (hs : (s.has_hr_imu || s.has_scaled_imu) = true) :
    ((run apm s evs).1.has_hr_imu || (run apm s evs).1.has_scaled_imu) = true := by
  induction evs generalizing s with
  | nil => exact hs
  | cons e rest ih =>
      cases e with
      | msg m =>
          simp only [run]
          refine ih (step apm s (Event.msg m)).1
            (fun e he => hm e (List.mem_cons_of_mem _ he)) ?_
          rw [(step_msg_flags apm s m).1, (step_msg_flags apm s m).2.1]
          cases h1 : s.has_hr_imu <;> cases h2 : s.has_scaled_imu <;>
            simp_all
      | connection_changed c =>
          exact absurd (hm _ (List.mem_cons_self _ _)) (by simp [Event.isMsg])

/-- With `has_hr_imu` set, every SCALED_IMU or RAW_IMU message is dropped. -/
theorem drop_scaled_raw (apm : Bool) (s : IMUState) (m : Msg)
    (hhr : s.has_hr_imu = true) (hm : (m.isScaledImu || m.isRawImu) = true) :
    step apm s (Event.msg m) = (s, []) := by
  cases m <;> simp_all [Msg.isScaledImu, Msg.isRawImu, step,
    handle_scaled_imu, handle_raw_imu]

/-- With `has_att_quat` set, every ATTITUDE (Euler) message is dropped. -/
theorem drop_attitude (apm : Bool) (s : IMUState) (m : Msg)
    (hq : s.has_att_quat = true) (hm : m.isAttitude = true) :
    step apm s (Event.msg m) = (s, []) := by
  cases m <;> simp_all [Msg.isAttitude, step, handle_attitude]

/-- With `has_hr_imu || has_scaled_imu` set, every RAW_IMU message is
dropped. -/
theorem drop_raw (apm : Bool) (s : IMUState) (m : Msg)
    (h : (s.has_hr_imu || s.has_scaled_imu) = true) (hm : m.isRawImu = true) :
    step apm s (Event.msg m) = (s, []) := by
  cases m <;> simp_all [Msg.isRawImu, step, handle_raw_imu]

/-! ## Claim theorems -/

/-- C7: for every stdev, `setup_covariance` returns the unknown sentinel
`[-1,0,0,0,0,0,0,0,0]` exactly when `stdev = 0`, and otherwise the 9-element
row-major matrix with `stdev²` at indices 0, 4, 8 and zero elsewhere; in
particular stdev 2 yields diagonal entries 4 and zero off-diagonal. -/
theorem c7_setup_covariance (stdev : ℚ) :
    (stdev = 0 → setup_covariance stdev = [-1, 0, 0, 0, 0, 0, 0, 0, 0])
    ∧ (stdev ≠ 0 → setup_covariance stdev
        = [stdev ^ 2, 0, 0, 0, stdev ^ 2, 0, 0, 0, stdev ^ 2])
    ∧ setup_covariance 2 = [4, 0, 0, 0, 4, 0, 0, 0, 4] := by
  refine ⟨fun h => by simp [setup_covariance, h],
          fun h => by simp [setup_covariance, h], ?_⟩
  norm_num [setup_covariance]

/-- Witness for C7 at the concrete inputs 0 and 2. -/
theorem c7_setup_covariance_witness :
    setup_covariance 0 = [-1, 0, 0, 0, 0, 0, 0, 0, 0]
    ∧ setup_covariance 2 = [(2 : ℚ) ^ 2, 0, 0, 0, 2 ^ 2, 0, 0, 0, 2 ^ 2] :=
  ⟨(c7_setup_covariance 0).1 rfl, (c7_setup_covariance 2).2.1 (by norm_num)⟩

/-- C5: a SCALED_PRESSURE message is dropped exactly when `has_hr_imu` is set
(independently of the other two flags, which the statement quantifies over);
when accepted it dispatches exactly one temperature record with value
`temperature / 100.0` followed by one pressure record with value
`press_abs * 100.0`. -/
theorem c5_scaled_pressure (s : IMUState) (t : ℕ) (press_abs temperature : ℚ) :
    (accepts s (Msg.scaled_pressure t press_abs temperature) = !s.has_hr_imu)
    ∧ (s.has_hr_imu = true →
        handle_scaled_pressure s t press_abs temperature = (s, []))
    ∧ (s.has_hr_imu = false →
        handle_scaled_pressure s t press_abs temperature =
          (s, [Output.temp_pub (synchronized_header s.frame_id t)
                 (temperature / 100),
               Output.press_pub (synchronized_header s.frame_id t)
                 (press_abs * 100)])) := by
  refine ⟨rfl, fun h => by simp [handle_scaled_pressure, h], fun h => ?_⟩
  norm_num [handle_scaled_pressure, h]

/-- Witness for C5 at concrete inputs: a state with only `has_scaled_imu` and
`has_att_quat` set still accepts SCALED_PRESSURE and emits the two records. -/
theorem c5_scaled_pressure_witness :
    (handle_scaled_pressure
        (init_state "base_link" 0 0 1 0 Vec3.zero Vec3.zero)
        7 1013 2550 =
      (init_state "base_link" 0 0 1 0 Vec3.zero Vec3.zero,
       [Output.temp_pub (synchronized_header "base_link" 7) (2550 / 100),
        Output.press_pub (synchronized_header "base_link" 7) (1013 * 100)]))
    ∧ (handle_scaled_pressure
        { init_state "base_link" 0 0 1 0 Vec3.zero Vec3.zero with
            has_hr_imu := true } 7 1013 2550 =
      ({ init_state "base_link" 0 0 1 0 Vec3.zero Vec3.zero with
            has_hr_imu := true }, [])) :=
  ⟨(c5_scaled_pressure (init_state "base_link" 0 0 1 0 Vec3.zero Vec3.zero)
      7 1013 2550).2.2 rfl,
   (c5_scaled_pressure
      { init_state "base_link" 0 0 1 0 Vec3.zero Vec3.zero with
          has_hr_imu := true } 7 1013 2550).2.1 rfl⟩

/-- C4: for every state and either payload value, the connection-changed
event resets exactly the three arbiter flags (the record-update form shows
every other field — cache pair and the five covariances — unchanged) and
produces no output, and afterwards every message kind is accepted. -/
theorem c4_connection_reset (apm : Bool) (s : IMUState) (c : Bool) :
    (step apm s (Event.connection_changed c) =
      ({ s with has_hr_imu := false, has_scaled_imu := false,
                has_att_quat := false }, []))
    ∧ ∀ m : Msg, accepts (step apm s (Event.connection_changed c)).1 m = true := by
  refine ⟨rfl, fun m => ?_⟩
  cases m <;> simp [step, connection_cb, accepts]

/-- C10: accepting an ATTITUDE (Euler) message leaves the whole plugin state
unchanged (in particular no arbiter flag records it); each arbiter flag
becomes true only through its own message kind; and no message handler ever
clears a flag. -/
theorem c10_flag_discipline :
    (∀ (s : IMUState) (t : ℕ) (r p y rs ps ys : ℚ),
        (handle_attitude s t r p y rs ps ys).1 = s)
    ∧ (∀ (apm : Bool) (s : IMUState) (m : Msg),
        (step apm s (Event.msg m)).1.has_hr_imu = true →
        s.has_hr_imu = true ∨ m.isHighresImu = true)
    ∧ (∀ (apm : Bool) (s : IMUState) (m : Msg),
        (step apm s (Event.msg m)).1.has_scaled_imu = true →
        s.has_scaled_imu = true ∨ m.isScaledImu = true)
    ∧ (∀ (apm : Bool) (s : IMUState) (m : Msg),
        (step apm s (Event.msg m)).1.has_att_quat = true →
        s.has_att_quat = true ∨ m.isAttitudeQuaternion = true)
    ∧ (∀ (apm : Bool) (s : IMUState) (m : Msg),
        s.has_hr_imu = true → (step apm s (Event.msg m)).1.has_hr_imu = true)
    ∧ (∀ (apm : Bool) (s : IMUState) (m : Msg),
        s.has_scaled_imu = true →
        (step apm s (Event.msg m)).1.has_scaled_imu = true)
    ∧ (∀ (apm : Bool) (s : IMUState) (m : Msg),
        s.has_att_quat = true →
        (step apm s (Event.msg m)).1.has_att_quat = true) := by
  refine ⟨fun s t r p y rs ps ys => ?_, ?_, ?_, ?_, ?_, ?_, ?_⟩
  · unfold handle_attitude
    split <;> rfl
  all_goals intro apm s m h
  · rcases Bool.or_eq_true_iff.mp ((step_msg_flags apm s m).1 ▸ h) with h1 | h1
    · exact Or.inl h1
    · exact Or.inr h1
  · rcases Bool.or_eq_true_iff.mp ((step_msg_flags apm s m).2.1 ▸ h) with h1 | h1
    · exact Or.inl h1
    · exact Or.inr (Bool.and_eq_true_iff.mp h1).1
  · rcases Bool.or_eq_true_iff.mp ((step_msg_flags apm s m).2.2 ▸ h) with h1 | h1
    · exact Or.inl h1
    · exact Or.inr h1
  · rw [(step_msg_flags apm s m).1, h, Bool.true_or]
  · rw [(step_msg_flags apm s m).2.1, h, Bool.true_or]
  · rw [(step_msg_flags apm s m).2.2, h, Bool.true_or]

/-- Witness for C10 at concrete inputs: a state with `has_hr_imu` set keeps
it across a SCALED_IMU message, and a state where processing a SCALED_IMU
message set `has_scaled_imu` indeed received a SCALED_IMU message. -/
theorem c10_flag_discipline_witness :
    ((step false
        { init_state "base_link" 0 0 1 0 Vec3.zero Vec3.zero with
            has_hr_imu := true }
        (Event.msg (Msg.scaled_imu 3 1 2 3 4 5 6 7 8 9))).1.has_hr_imu = true)
    ∧ ((init_state "base_link" 0 0 1 0 Vec3.zero Vec3.zero).has_scaled_imu = true
        ∨ (Msg.scaled_imu 3 1 2 3 4 5 6 7 8 9).isScaledImu = true) :=
  ⟨c10_flag_discipline.2.2.2.2.1 false _ _ rfl,
   c10_flag_discipline.2.2.1 false
     { init_state "base_link" 0 0 1 0 Vec3.zero Vec3.zero with
         has_hr_imu := false }
     (Msg.scaled_imu 3 1 2 3 4 5 6 7 8 9) (by decide)⟩

/-- C3: arbitration monotonicity.  Process any message `m0`, then any
message-only event sequence (no connection-changed event), reaching `s2`.
If `m0` was a HIGHRES_IMU, every SCALED_IMU and RAW_IMU message is dropped
at `s2` (no output, no state change); if `m0` was an ATTITUDE_QUATERNION,
every ATTITUDE (Euler) message is dropped at `s2`; if `m0` was a SCALED_IMU,
every RAW_IMU message is dropped at `s2`. -/
theorem c3_arbitration_monotonicity (apm : Bool) (s0 : IMUState)
    (m0 m : Msg) (evs : List Event) (hm : ∀ e ∈ evs, e.isMsg = true) :
    (m0.isHighresImu = true → (m.isScaledImu || m.isRawImu) = true →
      step apm (run apm (step apm s0 (Event.msg m0)).1 evs).1 (Event.msg m)
        = ((run apm (step apm s0 (Event.msg m0)).1 evs).1, []))
    ∧ (m0.isAttitudeQuaternion = true → m.isAttitude = true →
      step apm (run apm (step apm s0 (Event.msg m0)).1 evs).1 (Event.msg m)
        = ((run apm (step apm s0 (Event.msg m0)).1 evs).1, []))
    ∧ (m0.isScaledImu = true → m.isRawImu = true →
      step apm (run apm (step apm s0 (Event.msg m0)).1 evs).1 (Event.msg m)
        = ((run apm (step apm s0 (Event.msg m0)).1 evs).1, [])) := by
  refine ⟨fun h0 hkind => ?_, fun h0 hkind => ?_, fun h0 hkind => ?_⟩
  · refine drop_scaled_raw apm _ m ?_ hkind
    refine run_msgs_hr apm _ evs hm ?_
    rw [(step_msg_flags apm s0 m0).1, h0, Bool.or_true]
  · refine drop_attitude apm _ m ?_ hkind
    refine run_msgs_quat apm _ evs hm ?_
    rw [(step_msg_flags apm s0 m0).2.2, h0, Bool.or_true]
  · have hps := run_msgs_hr_or_scaled apm (step apm s0 (Event.msg m0)).1 evs hm ?_
    · exact drop_raw apm _ m hps hkind
    · rw [(step_msg_flags apm s0 m0).1, (step_msg_flags apm s0 m0).2.1, h0]
      cases h1 : s0.has_hr_imu <;> simp

/-- Witness for C3: a concrete HIGHRES_IMU acceptance followed by a RAW_IMU
message, after which a concrete SCALED_IMU message is dropped. -/
theorem c3_arbitration_monotonicity_witness :
    (let s0 := init_state "base_link" 0 0 1 0 Vec3.zero Vec3.zero
     let m0 := Msg.highres_imu 1 0 0 0 0 0 0 0 0 0 0 0 0
     let m := Msg.scaled_imu 2 1 2 3 4 5 6 7 8 9
     let evs : List Event := [Event.msg (Msg.raw_imu 3 1 1 1 1 1 1 1 1 1)]
     step false (run false (step false s0 (Event.msg m0)).1 evs).1 (Event.msg m)
       = ((run false (step false s0 (Event.msg m0)).1 evs).1, [])) :=
  (c3_arbitration_monotonicity false
    (init_state "base_link" 0 0 1 0 Vec3.zero Vec3.zero)
    (Msg.highres_imu 1 0 0 0 0 0 0 0 0 0 0 0 0)
    (Msg.scaled_imu 2 1 2 3 4 5 6 7 8 9)
    [Event.msg (Msg.raw_imu 3 1 1 1 1 1 1 1 1 1)]
    (by simp [Event.isMsg])).1 rfl rfl

/-- C1 counterexample: with the configured orientation stdev 1, processing a
concrete accepted ATTITUDE message yields a NED/aircraft record whose
orientation-covariance is the configured matrix `[1,0,0,0,1,0,0,0,1]` — not
the unknown sentinel `[-1,0,0,0,0,0,0,0,0]` the claim requires there. -/
theorem c1_counterexample :
    ((step false (init_state "base_link" 0 0 1 0 Vec3.zero Vec3.zero)
        (Event.msg (Msg.attitude 5 0 0 0 0 0 0))).2.get? 1 =
      some (Output.update_attitude_imu_ned
        { header := ⟨"aircraft", 5⟩
          orientation := Quat.quaternion_from_rpy 0 0 0
          angular_velocity := ⟨0, 0, 0⟩
          linear_acceleration := Vec3.zero
          orientation_covariance := [1, 0, 0, 0, 1, 0, 0, 0, 1]
          angular_velocity_covariance := [-1, 0, 0, 0, 0, 0, 0, 0, 0]
          linear_acceleration_covariance := [-1, 0, 0, 0, 0, 0, 0, 0, 0] }))
    ∧ ([1, 0, 0, 0, 1, 0, 0, 0, 1] : Cov) ≠ [-1, 0, 0, 0, 0, 0, 0, 0, 0] := by
  decide

/-- C1 (amended): for every accepted orientation-producing message (ATTITUDE
or ATTITUDE_QUATERNION), both the ENU/base_link and the NED/aircraft variants
of the paired output record carry the configured orientation covariance. -/
theorem c1_orientation_covariance :
    (∀ (s : IMUState) (t : ℕ) (r p y rs ps ys : ℚ), s.has_att_quat = false →
      ∃ enu ned,
        (handle_attitude s t r p y rs ps ys).2 =
          [Output.update_attitude_imu_enu enu,
           Output.update_attitude_imu_ned ned, Output.imu_pub enu]
        ∧ enu.orientation_covariance = s.orientation_cov
        ∧ ned.orientation_covariance = s.orientation_cov)
    ∧ (∀ (s : IMUState) (t : ℕ) (q1 q2 q3 q4 rs ps ys : ℚ),
      ∃ enu ned,
        (handle_attitude_quaternion s t q1 q2 q3 q4 rs ps ys).2 =
          [Output.update_attitude_imu_enu enu,
           Output.update_attitude_imu_ned ned, Output.imu_pub enu]
        ∧ enu.orientation_covariance = s.orientation_cov
        ∧ ned.orientation_covariance = s.orientation_cov) := by
  constructor
  · intro s t r p y rs ps ys h
    unfold handle_attitude
    rw [if_neg (by simp [h])]
    exact ⟨_, _, rfl, rfl, rfl⟩
  · intro s t q1 q2 q3 q4 rs ps ys
    unfold handle_attitude_quaternion
    exact ⟨_, _, rfl, rfl, rfl⟩

/-- Witness for C1 (amended) at a concrete accepted ATTITUDE message. -/
theorem c1_orientation_covariance_witness :
    ∃ enu ned,
      (handle_attitude (init_state "base_link" 0 0 1 0 Vec3.zero Vec3.zero)
          5 0 0 0 0 0 0).2 =
        [Output.update_attitude_imu_enu enu,
         Output.update_attitude_imu_ned ned, Output.imu_pub enu]
      ∧ enu.orientation_covariance =
          (init_state "base_link" 0 0 1 0 Vec3.zero Vec3.zero).orientation_cov
      ∧ ned.orientation_covariance =
          (init_state "base_link" 0 0 1 0 Vec3.zero Vec3.zero).orientation_cov :=
  c1_orientation_covariance.1
    (init_state "base_link" 0 0 1 0 Vec3.zero Vec3.zero) 5 0 0 0 0 0 0 rfl

/-- Exact value of the Gauss→Tesla coefficient. -/
theorem GAUSS_TO_TESLA_eq : GAUSS_TO_TESLA = 1 / 10000 := by
  norm_num [GAUSS_TO_TESLA]

/-- Exact value of the milliTesla→Tesla coefficient. -/
theorem MILLIT_TO_TESLA_eq : MILLIT_TO_TESLA = 1000 := by
  norm_num [MILLIT_TO_TESLA]

/-- Exact value of the milliRad/s→Rad/s coefficient. -/
theorem MILLIRS_TO_RADSEC_eq : MILLIRS_TO_RADSEC = 1 / 1000 := by
  norm_num [MILLIRS_TO_RADSEC]

/-- Exact value of the milli-G→m/s² coefficient. -/
theorem MILLIG_TO_MS2_eq : MILLIG_TO_MS2 = 980665 / 100000000 := by
  norm_num [MILLIG_TO_MS2]

/-- Exact value of the millibar→Pascal coefficient. -/
theorem MILLIBAR_TO_PASCAL_eq : MILLIBAR_TO_PASCAL = 100 := by
  norm_num [MILLIBAR_TO_PASCAL]

/-- C2 counterexample: two accepted non-APM RAW_IMU messages in a row.  The
second one publishes (and momentarily caches) the nonzero acceleration pair
(ENU `(1,-2,-3)`, NED `(1,2,3)`), yet after the handler the cached pair is
`(0,0,0)` again — the zeroing mechanism ran on the second message as well,
refuting "zeroed once, not every time". -/
theorem c2_counterexample :
    (let s0 := init_state "base_link" 0 0 1 0 ⟨9, 9, 9⟩ ⟨9, 9, 9⟩
     let s1 := (step false s0 (Event.msg (Msg.raw_imu 1 5 5 5 0 0 0 0 0 0))).1
     let res := step false s1 (Event.msg (Msg.raw_imu 2 1 2 3 0 0 0 0 0 0))
     res.2.get? 0 = some (Output.imu_raw_pub
        { header := ⟨"base_link", 2⟩
          orientation := Quat.defaultQuat
          angular_velocity := ⟨0, 0, 0⟩
          linear_acceleration := ⟨1, -2, -3⟩
          orientation_covariance := [-1, 0, 0, 0, 0, 0, 0, 0, 0]
          angular_velocity_covariance := [-1, 0, 0, 0, 0, 0, 0, 0, 0]
          linear_acceleration_covariance := [-1, 0, 0, 0, 0, 0, 0, 0, 0] })
     ∧ res.1.linear_accel_vec_enu = Vec3.zero
     ∧ res.1.linear_accel_vec_ned = Vec3.zero
     ∧ (⟨1, -2, -3⟩ : Vec3) ≠ Vec3.zero ∧ (⟨1, 2, 3⟩ : Vec3) ≠ Vec3.zero) := by
  norm_num [step, handle_raw_imu, publish_imu_data_raw, publish_mag,
    transform_frame_aircraft_baselink, Vec3.scale, Vec3.zero, init_state,
    setup_covariance, synchronized_header, MILLIRS_TO_RADSEC_eq,
    MILLIT_TO_TESLA_eq]

/-- C2 (amended): every accepted non-APM RAW_IMU message — not only the
first — ends with the cached linear-acceleration pair force-zeroed in both
frames. -/
theorem c2_raw_imu_zeroing (s : IMUState) (t : ℕ)
    (xa ya za xg yg zg xm ym zm : ℤ)
    (h : (s.has_hr_imu || s.has_scaled_imu) = false) :
    (handle_raw_imu false s t xa ya za xg yg zg xm ym zm).1.linear_accel_vec_enu
      = Vec3.zero
    ∧ (handle_raw_imu false s t xa ya za xg yg zg xm ym zm).1.linear_accel_vec_ned
      = Vec3.zero := by
  constructor <;> simp [handle_raw_imu, h, publish_imu_data_raw]

/-- Witness for C2 (amended) at a concrete accepted non-APM RAW_IMU message
arriving with a nonzero cache. -/
theorem c2_raw_imu_zeroing_witness :
    (handle_raw_imu false (init_state "base_link" 0 0 1 0 ⟨9, 9, 9⟩ ⟨9, 9, 9⟩)
        1 5 5 5 0 0 0 0 0 0).1.linear_accel_vec_enu = Vec3.zero
    ∧ (handle_raw_imu false (init_state "base_link" 0 0 1 0 ⟨9, 9, 9⟩ ⟨9, 9, 9⟩)
        1 5 5 5 0 0 0 0 0 0).1.linear_accel_vec_ned = Vec3.zero :=
  c2_raw_imu_zeroing (init_state "base_link" 0 0 1 0 ⟨9, 9, 9⟩ ⟨9, 9, 9⟩)
    1 5 5 5 0 0 0 0 0 0 rfl

/-- C9: for an accepted non-APM RAW_IMU message the handler dispatches the
`data_raw` record first (carrying the unscaled rotated raw acceleration —
nonzero whenever the raw reading is nonzero) followed by the magnetic-field
record, while the cached linear-acceleration pair ends the handler at
`(0,0,0)` in both frames. -/
theorem c9_raw_imu_publishes_before_zeroing (s : IMUState) (t : ℕ)
    (xa ya za xg yg zg xm ym zm : ℤ)
    (h : (s.has_hr_imu || s.has_scaled_imu) = false) :
    ∃ (r : ImuData) (hdr : Header) (mg : Vec3),
      (handle_raw_imu false s t xa ya za xg yg zg xm ym zm).2 =
        [Output.imu_raw_pub r, Output.magn_pub hdr mg s.magnetic_cov]
      ∧ r.linear_acceleration =
          transform_frame_aircraft_baselink ⟨(xa : ℚ), (ya : ℚ), (za : ℚ)⟩
      ∧ (handle_raw_imu false s t xa ya za xg yg zg xm ym zm).1.linear_accel_vec_enu
          = Vec3.zero
      ∧ (handle_raw_imu false s t xa ya za xg yg zg xm ym zm).1.linear_accel_vec_ned
          = Vec3.zero
      ∧ (¬(xa = 0 ∧ ya = 0 ∧ za = 0) → r.linear_acceleration ≠ Vec3.zero) := by
  unfold handle_raw_imu
  rw [if_neg (by simp [h])]
  refine ⟨_, _, _, rfl, rfl, rfl, rfl, fun hne heq => ?_⟩
  exact hne (by simpa [transform_frame_aircraft_baselink, Vec3.zero,
    Vec3.mk.injEq, neg_eq_zero] using heq)

/-- Witness for C9 at a concrete accepted non-APM RAW_IMU message with a
nonzero raw acceleration. -/
theorem c9_raw_imu_publishes_before_zeroing_witness :
    ∃ (r : ImuData) (hdr : Header) (mg : Vec3),
      (handle_raw_imu false (init_state "base_link" 0 0 1 0 Vec3.zero Vec3.zero)
          1 1 2 3 0 0 0 0 0 0).2 =
        [Output.imu_raw_pub r, Output.magn_pub hdr mg
          (init_state "base_link" 0 0 1 0 Vec3.zero Vec3.zero).magnetic_cov]
      ∧ r.linear_acceleration =
          transform_frame_aircraft_baselink ⟨(1 : ℚ), (2 : ℚ), (3 : ℚ)⟩
      ∧ (handle_raw_imu false (init_state "base_link" 0 0 1 0 Vec3.zero Vec3.zero)
          1 1 2 3 0 0 0 0 0 0).1.linear_accel_vec_enu = Vec3.zero
      ∧ (handle_raw_imu false (init_state "base_link" 0 0 1 0 Vec3.zero Vec3.zero)
          1 1 2 3 0 0 0 0 0 0).1.linear_accel_vec_ned = Vec3.zero
      ∧ (¬((1 : ℤ) = 0 ∧ (2 : ℤ) = 0 ∧ (3 : ℤ) = 0) →
          r.linear_acceleration ≠ Vec3.zero) :=
  c9_raw_imu_publishes_before_zeroing
    (init_state "base_link" 0 0 1 0 Vec3.zero Vec3.zero) 1 1 2 3 0 0 0 0 0 0 rfl

/-- C6: if processing an inertial-raw message (RAW_IMU, SCALED_IMU or
HIGHRES_IMU) left the cached linear acceleration at ENU `(1,2,3)` and NED
`v`, then any subsequently accepted attitude-bearing message (which carries
no acceleration fields) publishes output records whose linear-acceleration
fields are exactly `(1,2,3)` on the ENU record and `v` on the NED record. -/
theorem c6_cache_passthrough (apm : Bool) (s s1 : IMUState) (m0 : Msg)
    (outs : List Output) (v : Vec3)
    (h0 : (m0.isRawImu || m0.isScaledImu || m0.isHighresImu) = true)
    (hstep : step apm s (Event.msg m0) = (s1, outs))
    (henu : s1.linear_accel_vec_enu = ⟨1, 2, 3⟩)
    (hned : s1.linear_accel_vec_ned = v) :
    (∀ (t : ℕ) (r p y rs ps ys : ℚ), s1.has_att_quat = false →
      ∃ enu ned,
        (handle_attitude s1 t r p y rs ps ys).2 =
          [Output.update_attitude_imu_enu enu,
           Output.update_attitude_imu_ned ned, Output.imu_pub enu]
        ∧ enu.linear_acceleration = ⟨1, 2, 3⟩
        ∧ ned.linear_acceleration = v)
    ∧ (∀ (t : ℕ) (q1 q2 q3 q4 rs ps ys : ℚ),
      ∃ enu ned,
        (handle_attitude_quaternion s1 t q1 q2 q3 q4 rs ps ys).2 =
          [Output.update_attitude_imu_enu enu,
           Output.update_attitude_imu_ned ned, Output.imu_pub enu]
        ∧ enu.linear_acceleration = ⟨1, 2, 3⟩
        ∧ ned.linear_acceleration = v) := by
  constructor
  · intro t r p y rs ps ys hq
    unfold handle_attitude
    rw [if_neg (by simp [hq])]
    exact ⟨_, _, rfl, henu, hned⟩
  · intro t q1 q2 q3 q4 rs ps ys
    unfold handle_attitude_quaternion
    exact ⟨_, _, rfl, henu, hned⟩

/-- Witness for C6: a concrete HIGHRES_IMU message with accel bits set
caches ENU `(1,2,3)` / NED `(1,-2,-3)`, and a following ATTITUDE message
publishes exactly that pair. -/
theorem c6_cache_passthrough_witness :
    (let s0 := init_state "base_link" 0 0 1 0 Vec3.zero Vec3.zero
     let m0 := Msg.highres_imu 1 1 (-2) (-3) 0 0 0 0 0 0 0 0 7
     let s1 := (step false s0 (Event.msg m0)).1
     ∃ enu ned,
       (handle_attitude s1 5 0 0 0 0 0 0).2 =
         [Output.update_attitude_imu_enu enu,
          Output.update_attitude_imu_ned ned, Output.imu_pub enu]
       ∧ enu.linear_acceleration = ⟨1, 2, 3⟩
       ∧ ned.linear_acceleration = ⟨1, -2, -3⟩) :=
  (c6_cache_passthrough false
    (init_state "base_link" 0 0 1 0 Vec3.zero Vec3.zero)
    (step false (init_state "base_link" 0 0 1 0 Vec3.zero Vec3.zero)
      (Event.msg (Msg.highres_imu 1 1 (-2) (-3) 0 0 0 0 0 0 0 0 7))).1
    (Msg.highres_imu 1 1 (-2) (-3) 0 0 0 0 0 0 0 0 7)
    (step false (init_state "base_link" 0 0 1 0 Vec3.zero Vec3.zero)
      (Event.msg (Msg.highres_imu 1 1 (-2) (-3) 0 0 0 0 0 0 0 0 7))).2
    ⟨1, -2, -3⟩ (by decide) rfl (by decide) (by decide)).1
    5 0 0 0 0 0 0 (by decide)

/-- C8: unit-conversion exactness.  The conversion coefficients are the exact
rationals 1/10000 (Gauss→Tesla), 1/1000 (milliRad/s→Rad/s) and
9.80665/1000 = 980665/100000000 (milli-G→m/s²); a HIGHRES_IMU magnetometer
group is published with each component multiplied by exactly 1/10000 before
the frame rotation (so 1 Gauss maps to exactly 1.0e-4 Tesla); an accepted
SCALED_IMU message publishes gyro components multiplied by exactly 1/1000
and acceleration components by exactly 980665/100000000 before the rotation;
an accepted RAW_IMU message publishes gyro components multiplied by exactly
1/1000 before the rotation. -/
theorem c8_unit_conversion_exactness :
    (GAUSS_TO_TESLA = 1 / 10000 ∧ MILLIRS_TO_RADSEC = 1 / 1000
      ∧ MILLIG_TO_MS2 = 980665 / 100000000)
    ∧ (∀ (s : IMUState) (t : ℕ) (xm ym zm ap tm : ℚ),
        (handle_highres_imu s t 0 0 0 0 0 0 xm ym zm ap tm (7 <<< 6)).2 =
          [Output.magn_pub (synchronized_header s.frame_id t)
            (transform_frame_aircraft_baselink
              ⟨xm * (1 / 10000), ym * (1 / 10000), zm * (1 / 10000)⟩)
            s.magnetic_cov])
    ∧ (∀ (s : IMUState) (t : ℕ) (xa ya za xg yg zg xm ym zm : ℤ),
        s.has_hr_imu = false →
        ∃ (r : ImuData) (rest : List Output),
          (handle_scaled_imu s t xa ya za xg yg zg xm ym zm).2 =
            Output.imu_raw_pub r :: rest
          ∧ r.angular_velocity = transform_frame_aircraft_baselink
              ⟨(xg : ℚ) * (1 / 1000), (yg : ℚ) * (1 / 1000),
               (zg : ℚ) * (1 / 1000)⟩
          ∧ r.linear_acceleration = transform_frame_aircraft_baselink
              ⟨(xa : ℚ) * (980665 / 100000000), (ya : ℚ) * (980665 / 100000000),
               (za : ℚ) * (980665 / 100000000)⟩)
    ∧ (∀ (apm : Bool) (s : IMUState) (t : ℕ) (xa ya za xg yg zg xm ym zm : ℤ),
        (s.has_hr_imu || s.has_scaled_imu) = false →
        ∃ (r : ImuData) (rest : List Output),
          (handle_raw_imu apm s t xa ya za xg yg zg xm ym zm).2 =
            Output.imu_raw_pub r :: rest
          ∧ r.angular_velocity = transform_frame_aircraft_baselink
              ⟨(xg : ℚ) * (1 / 1000), (yg : ℚ) * (1 / 1000),
               (zg : ℚ) * (1 / 1000)⟩) := by
  refine ⟨⟨GAUSS_TO_TESLA_eq, MILLIRS_TO_RADSEC_eq, MILLIG_TO_MS2_eq⟩,
    fun s t xm ym zm ap tm => ?_, fun s t xa ya za xg yg zg xm ym zm h => ?_,
    fun apm s t xa ya za xg yg zg xm ym zm h => ?_⟩
  · simp +decide [handle_highres_imu, publish_mag, Vec3.scale,
      transform_frame_aircraft_baselink, GAUSS_TO_TESLA_eq]
  · unfold handle_scaled_imu
    rw [if_neg (by simp [h])]
    refine ⟨_, _, rfl, ?_, ?_⟩ <;>
      simp [publish_imu_data_raw, Vec3.scale, transform_frame_aircraft_baselink,
        MILLIRS_TO_RADSEC_eq, MILLIG_TO_MS2_eq]
  · unfold handle_raw_imu
    rw [if_neg (by simp [h])]
    refine ⟨_, _, rfl, ?_⟩
    simp [publish_imu_data_raw, Vec3.scale, transform_frame_aircraft_baselink,
      MILLIRS_TO_RADSEC_eq]

/-- Witness for C8: a 1-Gauss magnetometer reading on each axis is published
as exactly 1/10000 Tesla per component (before rotation), and the SCALED_IMU
and RAW_IMU conversions at concrete accepted messages. -/
theorem c8_unit_conversion_exactness_witness :
    ((handle_highres_imu (init_state "base_link" 0 0 1 0 Vec3.zero Vec3.zero)
        1 0 0 0 0 0 0 1 1 1 0 0 (7 <<< 6)).2 =
      [Output.magn_pub (synchronized_header "base_link" 1)
        (transform_frame_aircraft_baselink
          ⟨1 * (1 / 10000), 1 * (1 / 10000), 1 * (1 / 10000)⟩)
        (init_state "base_link" 0 0 1 0 Vec3.zero Vec3.zero).magnetic_cov])
    ∧ ∃ (r : ImuData) (rest : List Output),
        (handle_scaled_imu (init_state "base_link" 0 0 1 0 Vec3.zero Vec3.zero)
            2 1 2 3 4 5 6 7 8 9).2 = Output.imu_raw_pub r :: rest
        ∧ r.angular_velocity = transform_frame_aircraft_baselink
            ⟨(4 : ℚ) * (1 / 1000), (5 : ℚ) * (1 / 1000), (6 : ℚ) * (1 / 1000)⟩
        ∧ r.linear_acceleration = transform_frame_aircraft_baselink
            ⟨(1 : ℚ) * (980665 / 100000000), (2 : ℚ) * (980665 / 100000000),
             (3 : ℚ) * (980665 / 100000000)⟩ :=
  ⟨c8_unit_conversion_exactness.2.1
      (init_state "base_link" 0 0 1 0 Vec3.zero Vec3.zero) 1 1 1 1 0 0,
   c8_unit_conversion_exactness.2.2.1
      (init_state "base_link" 0 0 1 0 Vec3.zero Vec3.zero) 2 1 2 3 4 5 6 7 8 9
      rfl⟩
